import Mathlib

/-!
Verification development for the `llm-service` of the chat-framework repository.

We give a shallow embedding, in Lean, of the core asynchronous generation
pipeline of `python-services/llm-service/app`:

* `functions.py`   — `FunctionExecutor.execute` (tool dispatch);
* `rag_service.py` — `RAGService._split_text`, `_hash_id`, `ingest_text` id
  derivation;
* `llm_service.py` — `LLMService.chat_with_functions` (two-round completion
  protocol) and `_maybe_inject_rag_context`;
* `worker_mq.py`   — `GenerateTask.from_json`, `_handle_message`, and the
  retry / dead-letter classification of `run_consumer`.

Modelling conventions:

* Python `str` values are Lean `String`s; where character-level slicing
  matters (`_split_text`) the text is a `List Char` (Python strings are
  sequences of code points).
* Python JSON values are the inductive `JsonVal`; `json.loads` of the external
  `json` library is passed in as a parameter `jsonLoads : String → Except
  String JsonVal` (a parse failure carries the exception text), and
  `json.dumps` as `dumps : JsonVal → String`.
* Python truthiness (`x or d`) on the types that occur is made explicit by
  the `pyOr*` helpers: `None`, `""`, `0`, `[]` and `False` are falsy.
* `time.time()` readings are abstract integer clock values passed as
  parameters; `execution_time = exit reading - entry reading`.
* Exceptions are values of `PyErr`; a Python function that may raise is a
  Lean function into `Except PyErr _`.  The completion provider (OpenAI
  client) is an oracle parameter `provider : ProviderRequest → Except PyErr
  ProviderReply`.
-/

/-- Model of a Python / JSON value (the values flowing through `json.loads`,
function results, and message payloads). -/
inductive JsonVal where
  | null
  | bool (b : Bool)
  | num (n : Int)
  | str (s : String)
  | arr (xs : List JsonVal)
  | obj (fields : List (String × JsonVal))

/-- Python `o or d` where `o` is an optional string (both `None` and `""` are
falsy). -/
def pyOrStr (o : Option String) (d : String) : String :=
  match o with
  | none => d
  | some s => if s = "" then d else s

/-- Python `o or d` where `o` is an optional integer (both `None` and `0` are
falsy). -/
def pyOrInt (o : Option Int) (d : Int) : Int :=
  match o with
  | none => d
  | some n => if n = 0 then d else n

/-- Python `str(u or "")` for an optional integer `u` (used for the user-id
component of the ingest hash input): `None` and `0` print as the empty
string. -/
def uidStr (o : Option Int) : String :=
  match o with
  | none => ""
  | some n => if n = 0 then "" else toString n

/-- `app/models.py` `FunctionCall`: name plus the opaque JSON-encoded
arguments string. -/
structure FunctionCall where
  name : String
  arguments : String
deriving DecidableEq

/-- Outcome of invoking a registered handler: a returned value or a raised
exception (carrying `str(e)`). -/
inductive HandlerOutcome where
  | ok (v : JsonVal)
  | raise (msg : String)

/-- A registered handler: the parsed JSON arguments to an outcome.  The
source dispatches coroutine and plain handlers uniformly (awaiting the
former), so one function type models both. -/
def Handler : Type := JsonVal → HandlerOutcome

/-- `app/models.py` `FunctionExecutionResult`.  Python `None` in `result` is
`JsonVal.null`; `execution_time` is the difference of the exit and entry
clock readings. -/
structure FunctionExecutionResult where
  functionName : String
  result : JsonVal
  success : Bool
  error : Option String
  executionTime : Int

/-- `app/functions.py` `FunctionExecutor.execute`.  `handlers` is the
`_handlers` dict as an association list, `jsonLoads` the external JSON
parse, `t0` the `time.time()` reading at entry and `t1` the reading taken at
whichever `return` executes.  The source wraps the whole body in
`try/except`, so every path — unknown name, argument parse failure, handler
exception — returns a `FunctionExecutionResult`; this embedding is total,
mirroring that no exception escapes to the caller. -/
def FunctionExecutor.execute (jsonLoads : String → Except String JsonVal)
    (handlers : List (String × Handler)) (call : FunctionCall)
    (t0 t1 : Int) : FunctionExecutionResult :=
  match List.lookup call.name handlers with
  | none =>
      { functionName := call.name
        result := .null
        success := false
        error := some ("函数未注册: " ++ call.name)
        executionTime := t1 - t0 }
  | some handler =>
      match (if call.arguments = "" then Except.ok (JsonVal.obj [])
             else jsonLoads call.arguments) with
      | .error e =>
          { functionName := call.name
            result := .null
            success := false
            error := some ("参数解析失败: " ++ e)
            executionTime := t1 - t0 }
      | .ok args =>
          match handler args with
          | .ok v =>
              { functionName := call.name
                result := v
                success := true
                error := none
                executionTime := t1 - t0 }
          | .raise e =>
              { functionName := call.name
                result := .null
                success := false
                error := some e
                executionTime := t1 - t0 }

/-- Wrapping of a handler outcome into a `FunctionExecutionResult`, as done by
the success and `except` branches of `FunctionExecutor.execute`. -/
def wrapOutcome (name : String) (outcome : HandlerOutcome)
    (t0 t1 : Int) : FunctionExecutionResult :=
  match outcome with
  | .ok v =>
      { functionName := name, result := v, success := true, error := none
        executionTime := t1 - t0 }
  | .raise e =>
      { functionName := name, result := .null, success := false
        error := some e, executionTime := t1 - t0 }

/-- Claim C3: for a registered call whose non-empty `arguments` string fails
to parse as JSON, `execute` returns `success = false` with a non-null error
describing the parse failure and a non-negative execution time; the result is
the same for any registry binding the name (the handler is never invoked);
and an empty arguments string is parsed as the empty JSON object handed to
the handler.  `execute` is a total function into `FunctionExecutionResult`,
mirroring that the source never lets an exception escape to its caller. -/
theorem execute_malformed_arguments_safe
    (jsonLoads : String → Except String JsonVal)
    (handlers : List (String × Handler)) (call : FunctionCall)
    (h : Handler) (e : String) (t0 t1 : Int)
    (hreg : List.lookup call.name handlers = some h)
    (hne : call.arguments ≠ "")
    (hparse : jsonLoads call.arguments = Except.error e)
    (ht : t0 ≤ t1) :
    FunctionExecutor.execute jsonLoads handlers call t0 t1 =
      { functionName := call.name, result := .null, success := false
        error := some ("参数解析失败: " ++ e), executionTime := t1 - t0 }
    ∧ 0 ≤ (FunctionExecutor.execute jsonLoads handlers call t0 t1).executionTime
    ∧ (∀ (handlers2 : List (String × Handler)) (h2 : Handler),
        List.lookup call.name handlers2 = some h2 →
        FunctionExecutor.execute jsonLoads handlers2 call t0 t1 =
          FunctionExecutor.execute jsonLoads handlers call t0 t1)
    ∧ (∀ (c2 : FunctionCall) (h2 : Handler), c2.arguments = "" →
        List.lookup c2.name handlers = some h2 →
        FunctionExecutor.execute jsonLoads handlers c2 t0 t1 =
          wrapOutcome c2.name (h2 (JsonVal.obj [])) t0 t1) := by
  have hmain : FunctionExecutor.execute jsonLoads handlers call t0 t1 =
      { functionName := call.name, result := .null, success := false
        error := some ("参数解析失败: " ++ e), executionTime := t1 - t0 } := by
    unfold FunctionExecutor.execute
    rw [hreg]
    simp only [if_neg hne, hparse]
  refine ⟨hmain, ?_, ?_, ?_⟩
  · rw [hmain]
    simpa using Int.sub_nonneg.mpr ht
  · intro handlers2 h2 hreg2
    have hmain2 : FunctionExecutor.execute jsonLoads handlers2 call t0 t1 =
        { functionName := call.name, result := .null, success := false
          error := some ("参数解析失败: " ++ e), executionTime := t1 - t0 } := by
      unfold FunctionExecutor.execute
      rw [hreg2]
      simp only [if_neg hne, hparse]
    rw [hmain2, hmain]
  · intro c2 h2 hempty hreg2
    unfold FunctionExecutor.execute
    rw [hreg2]
    simp only [if_pos hempty]
    cases hout : h2 (JsonVal.obj []) <;> simp [wrapOutcome, hout]

/-- Witness for C3 at a concrete malformed input. -/
theorem execute_malformed_arguments_safe_witness :
    FunctionExecutor.execute (fun _ => Except.error "Expecting value")
      [("calculate", fun _ => HandlerOutcome.ok (JsonVal.num 3))]
      { name := "calculate", arguments := "oops" } 0 2 =
      { functionName := "calculate", result := .null, success := false
        error := some ("参数解析失败: " ++ "Expecting value")
        executionTime := 2 - 0 } :=
  (execute_malformed_arguments_safe (fun _ => Except.error "Expecting value")
    [("calculate", fun _ => HandlerOutcome.ok (JsonVal.num 3))]
    { name := "calculate", arguments := "oops" }
    (fun _ => HandlerOutcome.ok (JsonVal.num 3)) "Expecting value" 0 2
    rfl (by decide) rfl (by decide)).1

/-- Claim C9, counterexample: at the concrete unregistered call
`get_current_time` (empty registry), the error text is the Chinese
`"函数未注册: get_current_time"`, not the claimed literal
`"function not registered: get_current_time"`. -/
theorem execute_unregistered_counterexample :
    (FunctionExecutor.execute (fun _ => Except.error "x") []
        { name := "get_current_time", arguments := "" } 0 0).error
      = some "函数未注册: get_current_time"
    ∧ (FunctionExecutor.execute (fun _ => Except.error "x") []
        { name := "get_current_time", arguments := "" } 0 0).error
      ≠ some "function not registered: get_current_time" := by
  refine ⟨rfl, ?_⟩
  decide

/-- Claim C9 as amended: for an unregistered name, `execute` returns
`success = false`, `function_name` the call's name, the error string
`"函数未注册: <name>"` (the source's Chinese phrasing of "function not
registered: <name>"), and a non-negative execution time. -/
theorem execute_unregistered
    (jsonLoads : String → Except String JsonVal)
    (handlers : List (String × Handler)) (call : FunctionCall) (t0 t1 : Int)
    (hreg : List.lookup call.name handlers = none)
    (ht : t0 ≤ t1) :
    FunctionExecutor.execute jsonLoads handlers call t0 t1 =
      { functionName := call.name, result := .null, success := false
        error := some ("函数未注册: " ++ call.name), executionTime := t1 - t0 }
    ∧ 0 ≤ (FunctionExecutor.execute jsonLoads handlers call t0 t1).executionTime := by
  have hmain : FunctionExecutor.execute jsonLoads handlers call t0 t1 =
      { functionName := call.name, result := .null, success := false
        error := some ("函数未注册: " ++ call.name), executionTime := t1 - t0 } := by
    unfold FunctionExecutor.execute
    rw [hreg]
  refine ⟨hmain, ?_⟩
  rw [hmain]
  simpa using Int.sub_nonneg.mpr ht

/-- Witness for the amended C9 at a concrete input. -/
theorem execute_unregistered_witness :
    FunctionExecutor.execute (fun _ => Except.error "x") []
      { name := "web_search", arguments := "" } 0 3 =
      { functionName := "web_search", result := .null, success := false
        error := some ("函数未注册: " ++ "web_search"), executionTime := 3 - 0 } :=
  (execute_unregistered (fun _ => Except.error "x") []
    { name := "web_search", arguments := "" } 0 3 rfl (by decide)).1

/-- Python `range(0, stop, step)` for a positive step: the indices
`0, step, 2*step, ...` strictly below `stop`; their number is
`ceil(stop / step) = (stop + step - 1) / step`. -/
def pyRange (stop step : Nat) : List Nat :=
  (List.range ((stop + step - 1) / step)).map (fun k => k * step)

/-- `app/rag_service.py` `RAGService._split_text`.  The text is a list of
code points (Python `str` slicing is by code point); the stride is
`max(1, chunk_size - chunk_overlap)` and each chunk is the slice
`text[i : i + chunk_size]`. -/
def splitText (text : List Char) (chunkSize chunkOverlap : Nat) :
    List (List Char) :=
  if text = [] then []
  else (pyRange text.length (max 1 (chunkSize - chunkOverlap))).map
    (fun i => (text.drop i).take chunkSize)

/-- Unfolding of `splitText` on non-empty text: the head chunk is
`text[:chunk_size]` and the tail chunks are the split of the text with one
stride removed. -/
theorem splitText_cons (t : List Char) (cs ov : Nat) (h : t ≠ []) :
    splitText t cs ov = t.take cs :: splitText (t.drop (max 1 (cs - ov))) cs ov := by
  have hstep : 0 < max 1 (cs - ov) := by omega
  set s := max 1 (cs - ov) with hs
  have hn : 0 < t.length := List.length_pos.mpr h
  by_cases hd : t.drop s = []
  · have hns : t.length ≤ s := by
      have := List.drop_eq_nil_iff.mp hd
      omega
    have hc : (t.length + s - 1) / s = 1 := by
      have hx : t.length + s - 1 = (t.length - 1) + s := by omega
      rw [hx, Nat.add_div_right _ hstep, Nat.div_eq_of_lt (by omega)]
    rw [splitText, if_neg h, splitText, if_pos hd]
    unfold pyRange
    rw [hc]
    have h1 : List.range 1 = [0] := rfl
    rw [h1]
    simp
  · have hns : s < t.length := by
      rcases Nat.lt_or_ge s t.length with h1 | h1
      · exact h1
      · exact absurd (List.drop_eq_nil_iff.mpr h1) hd
    have hc1 : (t.length + s - 1) / s = ((t.length - 1) / s) + 1 := by
      have hx : t.length + s - 1 = (t.length - 1) + s := by omega
      rw [hx, Nat.add_div_right _ hstep]
    have hlen2 : (t.drop s).length = t.length - s := List.length_drop s t
    have hc2 : ((t.drop s).length + s - 1) / s = (t.length - 1) / s := by
      rw [hlen2]
      have hx : t.length - s + s - 1 = t.length - 1 := by omega
      rw [hx]
    rw [splitText, if_neg h, splitText, if_neg hd]
    unfold pyRange
    rw [hc2, hc1, List.range_succ_eq_map]
    simp only [List.map_cons, List.map_map]
    refine congrArg₂ List.cons (by simp) ?_
    refine List.map_congr_left ?_
    intro k hk
    simp only [Function.comp_apply]
    rw [List.drop_drop]
    have hmul : (k + 1) * s = s + k * s := by ring
    rw [Nat.succ_eq_add_one, hmul]

/-- `splitText` of the empty text is the empty sequence of chunks. -/
theorem splitText_nil (cs ov : Nat) : splitText [] cs ov = [] := rfl

/-- A non-empty text always yields at least one chunk. -/
theorem splitText_ne_nil (t : List Char) (cs ov : Nat) (h : t ≠ []) :
    splitText t cs ov ≠ [] := by
  rw [splitText_cons t cs ov h]
  exact List.cons_ne_nil _ _

/-- Chunk-count identity for stride 800: `ceil(L / 800)` decreases by one
when one stride of text is removed. -/
theorem count800 (L : Nat) (hL : 1 ≤ L) :
    (L + 799) / 800 = (L - 800 + 799) / 800 + 1 := by
  rcases le_or_lt L 800 with h | h
  · have h1 : L - 800 = 0 := by omega
    have h2 : L + 799 = (L - 1) + 800 := by omega
    rw [h1, h2, Nat.add_div_right _ (by norm_num),
      Nat.div_eq_of_lt (by omega : L - 1 < 800),
      Nat.div_eq_of_lt (by norm_num : (0 : Nat) + 799 < 800)]
  · have h2 : L + 799 = (L - 800 + 799) + 800 := by omega
    rw [h2, Nat.add_div_right _ (by norm_num)]

/-- Claim C4 as amended: for chunk size 1000 and overlap 200 (stride 800),
`splitText` yields exactly `ceil(L / 800)` chunks, each of length at most
1000; every chunk except the last is longer than 800 (but a non-final chunk
— the penultimate one — may be shorter than 1000); concatenating the first
800 characters of every chunk but the last, followed by the whole last
chunk, reconstructs the text; and empty input yields no chunks. -/
theorem splitText_spec (t : List Char) :
    (splitText t 1000 200).length = (t.length + 799) / 800
    ∧ (∀ c ∈ splitText t 1000 200, c.length ≤ 1000)
    ∧ (∀ c ∈ (splitText t 1000 200).dropLast, 800 < c.length)
    ∧ ((splitText t 1000 200).dropLast.map (fun c => c.take 800)).flatten
        ++ ((splitText t 1000 200).getLast?.getD []) = t
    ∧ (t = [] → splitText t 1000 200 = []) := by
  suffices H : ∀ (L : Nat) (u : List Char), u.length = L →
      (splitText u 1000 200).length = (u.length + 799) / 800
      ∧ (∀ c ∈ splitText u 1000 200, c.length ≤ 1000)
      ∧ (∀ c ∈ (splitText u 1000 200).dropLast, 800 < c.length)
      ∧ ((splitText u 1000 200).dropLast.map (fun c => c.take 800)).flatten
          ++ ((splitText u 1000 200).getLast?.getD []) = u
      ∧ (u = [] → splitText u 1000 200 = []) by
    exact H t.length t rfl
  intro L
  induction L using Nat.strong_induction_on with
  | _ L IH =>
    intro u hL
    by_cases hu : u = []
    · subst hu
      refine ⟨by decide, ?_, ?_, rfl, fun _ => rfl⟩
      · intro c hc
        simp [splitText_nil] at hc
      · intro c hc
        simp [splitText_nil] at hc
    · have hmax : max 1 (1000 - 200) = 800 := rfl
      have hsplit : splitText u 1000 200 =
          u.take 1000 :: splitText (u.drop 800) 1000 200 := by
        have hx := splitText_cons u 1000 200 hu
        rwa [hmax] at hx
      have hlen : 0 < u.length := List.length_pos.mpr hu
      have hdl : (u.drop 800).length = u.length - 800 := List.length_drop 800 u
      have hlt : (u.drop 800).length < L := by omega
      obtain ⟨IH1, IH2, IH3, IH4, _⟩ := IH (u.drop 800).length hlt (u.drop 800) rfl
      refine ⟨?_, ?_, ?_, ?_, fun hc => absurd hc hu⟩
      · rw [hsplit]
        simp only [List.length_cons]
        rw [IH1, hdl]
        exact (count800 u.length (by omega)).symm
      · intro c hc
        rw [hsplit] at hc
        rcases List.mem_cons.mp hc with hceq | hc2
        · subst hceq
          simp [List.length_take]
        · exact IH2 c hc2
      · intro c hc
        rw [hsplit] at hc
        by_cases hrest : splitText (u.drop 800) 1000 200 = []
        · rw [hrest] at hc
          simp at hc
        · obtain ⟨b, l, hbl⟩ := List.exists_cons_of_ne_nil hrest
          rw [hbl, List.dropLast_cons₂] at hc
          rcases List.mem_cons.mp hc with hceq | hc2
          · subst hceq
            have hne2 : u.drop 800 ≠ [] := fun h0 => hrest (by rw [h0, splitText_nil])
            have hgt : 800 < u.length := by
              rcases Nat.lt_or_ge 800 u.length with h1 | h1
              · exact h1
              · exact absurd (List.drop_eq_nil_iff.mpr h1) hne2
            simp only [List.length_take]
            omega
          · exact IH3 c (by rw [hbl]; exact hc2)
      · rw [hsplit]
        by_cases hrest : splitText (u.drop 800) 1000 200 = []
        · have hd0 : u.drop 800 = [] := by
            by_contra hne2
            exact splitText_ne_nil _ _ _ hne2 hrest
          have hle : u.length ≤ 800 := List.drop_eq_nil_iff.mp hd0
          rw [hrest]
          simp only [List.dropLast_single, List.map_nil, List.flatten_nil,
            List.nil_append, List.getLast?_singleton, Option.getD_some]
          exact List.take_of_length_le (by omega)
        · obtain ⟨b, l, hbl⟩ := List.exists_cons_of_ne_nil hrest
          rw [hbl, List.dropLast_cons₂, List.getLast?_cons_cons,
            List.map_cons, List.flatten_cons, List.append_assoc]
          have hIH4 : ((b :: l).dropLast.map (fun c => c.take 800)).flatten
              ++ ((b :: l).getLast?.getD []) = u.drop 800 := by
            rw [← hbl]
            exact IH4
          rw [hIH4, List.take_take]
          have hmin : min 800 1000 = 800 := rfl
          rw [hmin, List.take_append_drop]

set_option maxRecDepth 10000 in
/-- Claim C4, counterexample: on a text of 900 characters the split is
`[900, 100]` — the first chunk is NOT the final one yet is shorter than
1000 characters, refuting "only the final chunk may be shorter than 1000"
(the stride is 800, so the penultimate chunk can be short). -/
theorem splitText_only_final_short_counterexample :
    (splitText (List.replicate 900 'a') 1000 200).map List.length = [900, 100]
    ∧ ¬ (∀ c ∈ (splitText (List.replicate 900 'a') 1000 200).dropLast,
          c.length = 1000) := by
  decide

/-- Witness for the amended C4 at a concrete 1000-character text:
`ceil(1000 / 800) = 2` chunks. -/
theorem splitText_spec_witness :
    (splitText (List.replicate 1000 'b') 1000 200).length = 2 :=
  ((splitText_spec (List.replicate 1000 'b')).1).trans (by norm_num)

/-- Python `dict.__setitem__` on an association list: an existing key keeps
its position and gets the new value, a new key is appended. -/
def pyDictSet (d : List (String × JsonVal)) (k : String) (v : JsonVal) :
    List (String × JsonVal) :=
  if (List.lookup k d).isSome then
    d.map (fun p => if p.1 = k then (k, v) else p)
  else d ++ [(k, v)]

/-- Python `base.update(extra)`: every key of `extra` is written into `base`
(the caller's extra metadata wins on key collision). -/
def pyDictUpdate (base extra : List (String × JsonVal)) :
    List (String × JsonVal) :=
  extra.foldl (fun acc p => pyDictSet acc p.1 p.2) base

/-- Per-chunk metadata built by `RAGService.ingest_text`: namespace (default
`"default"`), chunk index, doc id, optional user id, optional non-empty
tags, then merged with the caller's extra metadata. -/
def ingestMetadata (ns : Option String) (userId : Option Int)
    (tags : Option (List String))
    (extraMetadata : Option (List (String × JsonVal)))
    (baseId : String) (idx : Nat) : List (String × JsonVal) :=
  let md0 : List (String × JsonVal) :=
    [("namespace", .str (pyOrStr ns "default")),
     ("chunk_index", .num idx),
     ("doc_id", .str baseId)]
  let md1 := match userId with
    | none => md0
    | some u => md0 ++ [("user_id", .num u)]
  let md2 := match tags with
    | none => md1
    | some ts => if ts = [] then md1
        else md1 ++ [("tags", .arr (ts.map JsonVal.str))]
  match extraMetadata with
  | none => md2
  | some extra => pyDictUpdate md2 extra

/-- Result of `RAGService.ingest_text` as far as the store upsert is
concerned: the returned doc id and chunk count, the chunk ids, and the
per-chunk metadata.  (The embedding call and the store upsert themselves are
external collaborators.) -/
structure IngestResult where
  docId : String
  chunkCount : Nat
  ids : List String
  metadatas : List (List (String × JsonVal))

/-- `app/rag_service.py` `RAGService.ingest_text`.  `hashId` is
`RAGService._hash_id` (the first 32 hex digits of SHA-256, an external pure
function of its input string).  With no chunks the collaborators are not
consulted and the returned doc id is `doc_id or ""`; otherwise the base id
is `doc_id or _hash_id((namespace or "default") + (str(user_id or "") +
text[:64]))` and chunk `i` gets id `_hash_id(f"{base_id}-{i}")`. -/
def ingestText (hashId : String → String) (chunkSize chunkOverlap : Nat)
    (text : String) (docId ns : Option String) (userId : Option Int)
    (tags : Option (List String))
    (extraMetadata : Option (List (String × JsonVal))) : IngestResult :=
  let chunks := splitText text.data chunkSize chunkOverlap
  if chunks = [] then
    { docId := pyOrStr docId "", chunkCount := 0, ids := [], metadatas := [] }
  else
    let baseId := pyOrStr docId
      (hashId ((pyOrStr ns "default") ++ (uidStr userId ++ text.take 64)))
    { docId := baseId
      chunkCount := chunks.length
      ids := (List.range chunks.length).map
        (fun i => hashId (baseId ++ "-" ++ toString i))
      metadatas := (List.range chunks.length).map
        (ingestMetadata ns userId tags extraMetadata baseId) }

/-- Claim C8: chunk ids are deterministic functions of the hash function,
split parameters, text, doc id, namespace and user id alone — two ingest
calls agreeing on those (whatever their tags or extra metadata) derive the
same base id and the same per-index chunk ids, so re-ingesting the same
content under the same identity upserts the same ids. -/
theorem ingest_ids_deterministic (hashId : String → String)
    (chunkSize chunkOverlap : Nat) (text : String) (docId ns : Option String)
    (userId : Option Int) (tags1 tags2 : Option (List String))
    (extra1 extra2 : Option (List (String × JsonVal))) :
    (ingestText hashId chunkSize chunkOverlap text docId ns userId
        tags1 extra1).docId
      = (ingestText hashId chunkSize chunkOverlap text docId ns userId
        tags2 extra2).docId
    ∧ (ingestText hashId chunkSize chunkOverlap text docId ns userId
        tags1 extra1).ids
      = (ingestText hashId chunkSize chunkOverlap text docId ns userId
        tags2 extra2).ids
    ∧ (ingestText hashId chunkSize chunkOverlap text docId ns userId
        tags1 extra1).chunkCount
      = (ingestText hashId chunkSize chunkOverlap text docId ns userId
        tags2 extra2).chunkCount := by
  unfold ingestText
  by_cases h : splitText text.data chunkSize chunkOverlap = [] <;>
    simp [h]

/-- Python exception values relevant to the worker's failure classification:
`asyncio.TimeoutError` is the transient class, everything else is
permanent. -/
inductive PyErr where
  | timeoutErr
  | valueError (msg : String)
  | typeError (msg : String)
  | otherErr (msg : String)
deriving DecidableEq

/-- The worker retries exactly the `asyncio.TimeoutError` class. -/
def PyErr.isTimeout : PyErr → Bool
  | .timeoutErr => true
  | _ => false

/-- `app/models.py` `TokenUsage`. -/
structure TokenUsage where
  promptTokens : Int
  completionTokens : Int
  totalTokens : Int
deriving DecidableEq

/-- `app/models.py` `FunctionDefinition` (also the shape of the dicts
returned by `list_defs_as_openai`). -/
structure FunctionDefinition where
  name : String
  description : String
  parameters : JsonVal

/-- `app/models.py` `ChatMessageWithFunction`. -/
structure ChatMessageWithFunction where
  role : String
  content : Option String
  functionCall : Option FunctionCall
  name : Option String

/-- `app/models.py` `ChatRequestWithFunctions`.  `functionCallPolicy` is the
source's `function_call` field (the call-policy string, pydantic default
`"auto"`); `temperature` is a rational stand-in for the Python float. -/
structure ChatRequestWithFunctions where
  messages : List ChatMessageWithFunction
  model : String
  userId : Int
  sessionId : Option String
  temperature : Option ℚ
  maxTokens : Option Int
  functions : Option (List FunctionDefinition)
  functionCallPolicy : Option String

/-- One message dict as put on the wire to the completion provider. -/
structure WireMessage where
  role : String
  content : String
  functionCall : Option FunctionCall
  name : Option String
deriving DecidableEq

/-- Round-1 rendering of a request message in `chat_with_functions`:
`{"role": ..., "content": msg.content or ""}` plus the `function_call` key if
present and the `name` key if truthy (a `None` or empty name is omitted). -/
def renderMessage (m : ChatMessageWithFunction) : WireMessage :=
  { role := m.role
    content := pyOrStr m.content ""
    functionCall := m.functionCall
    name := match m.name with
      | none => none
      | some s => if s = "" then none else some s }

/-- Round-2 rendering of a request message in `chat_with_functions`: only
`{"role": ..., "content": m.content or ""}` (function-call metadata and name
are not copied into the follow-up conversation). -/
def renderPlain (m : ChatMessageWithFunction) : WireMessage :=
  { role := m.role, content := pyOrStr m.content ""
    functionCall := none, name := none }

/-- Python `o or d` on an optional list (`None` and `[]` are falsy). -/
def pyOrList {α : Type} (o : Option (List α)) (d : List α) : List α :=
  match o with
  | none => d
  | some [] => d
  | some (a :: l) => a :: l

/-- Python `o or d` on an optional rational (stand-in for the float
`request.temperature or 0.7`; `None` and `0` are falsy). -/
def pyOrRat (o : Option ℚ) (d : ℚ) : ℚ :=
  match o with
  | none => d
  | some q => if q = 0 then d else q

/-- One request to the completion provider
(`openai_client.chat.completions.create`): `functions = none` means the
`functions`/`function_call` parameters are not passed at all. -/
structure ProviderRequest where
  model : String
  messages : List WireMessage
  temperature : ℚ
  maxTokens : Int
  functions : Option (List FunctionDefinition)
  functionCallPolicy : Option String

/-- One reply from the completion provider: the choice's message content and
optional function call, plus the usage block. -/
structure ProviderReply where
  content : Option String
  functionCall : Option FunctionCall
  usage : TokenUsage

/-- The first-round request assembled by `chat_with_functions`: the rendered
conversation, `temperature or 0.7`, `max_tokens or 1000`, and — only when
`request.functions or <registered defs>` is non-empty — the function list
with policy `request.function_call or "auto"`. -/
def round1Request (available : List FunctionDefinition)
    (req : ChatRequestWithFunctions) : ProviderRequest :=
  let funcs := pyOrList req.functions available
  { model := req.model
    messages := req.messages.map renderMessage
    temperature := pyOrRat req.temperature (7 / 10)
    maxTokens := pyOrInt req.maxTokens 1000
    functions := if funcs.isEmpty then none else some funcs
    functionCallPolicy :=
      if funcs.isEmpty then none
      else some (pyOrStr req.functionCallPolicy "auto") }

/-- The second-round (follow-up) request assembled by `chat_with_functions`
after dispatching `call` with outcome `result`: the plain-rendered original
conversation, then an assistant message with empty content carrying the
call, then a function-role message whose content is `json.dumps` of the
outcome's `result` field; no function list is offered. -/
def round2Request (dumps : JsonVal → String) (req : ChatRequestWithFunctions)
    (call : FunctionCall) (result : FunctionExecutionResult) :
    ProviderRequest :=
  { model := req.model
    messages := req.messages.map renderPlain
      ++ [{ role := "assistant", content := ""
            functionCall := some call, name := none },
          { role := "function", content := dumps result.result
            functionCall := none, name := some call.name }]
    temperature := pyOrRat req.temperature (7 / 10)
    maxTokens := pyOrInt req.maxTokens 1000
    functions := none
    functionCallPolicy := none }

/-- `app/models.py` `ChatResponseWithFunction` (the fields the code sets;
`response` and `usage` are always assigned on success paths). -/
structure ChatResponseWithFunction where
  response : Option String
  model : String
  usage : TokenUsage
  sessionId : Option String
  functionCall : Option FunctionCall
  functionResult : Option FunctionExecutionResult
  requiresFunctionCall : Bool

/-- `app/llm_service.py` `LLMService.chat_with_functions`.

Parameters model the service's collaborators: `modelSupported` is
`is_model_supported` (depends on the provider's model list), `hasApiKey`
whether `openai_client` is configured, `available` the registry's
`list_defs_as_openai()` output, `provider` the completion client, and
`jsonLoads`/`dumps`/`handlers`/`t0`/`t1` are threaded to
`function_executor.execute`.  The second component of the result is the
list of provider requests actually issued, in order (the source never
issues a third request: a function call in the follow-up reply is ignored).
Raised exceptions are the `Except.error` case. -/
def chatWithFunctions (modelSupported : String → Bool) (hasApiKey : Bool)
    (jsonLoads : String → Except String JsonVal) (dumps : JsonVal → String)
    (handlers : List (String × Handler))
    (available : List FunctionDefinition) (t0 t1 : Int)
    (provider : ProviderRequest → Except PyErr ProviderReply)
    (req : ChatRequestWithFunctions) :
    Except PyErr ChatResponseWithFunction × List ProviderRequest :=
  if ¬ modelSupported req.model then
    (.error (.valueError ("不支持的模型: " ++ req.model)), [])
  else if ¬ hasApiKey then
    (.error (.valueError "OpenAI API Key 未配置，无法调用LLM"), [])
  else
    let r1req := round1Request available req
    match provider r1req with
    | .error e => (.error e, [r1req])
    | .ok r1 =>
      match r1.functionCall with
      | none =>
          (.ok { response := some (pyOrStr r1.content "")
                 model := req.model
                 usage := r1.usage
                 sessionId := req.sessionId
                 functionCall := none
                 functionResult := none
                 requiresFunctionCall := false }, [r1req])
      | some call =>
          let result := FunctionExecutor.execute jsonLoads handlers call t0 t1
          let r2req := round2Request dumps req call result
          match provider r2req with
          | .error e => (.error e, [r1req, r2req])
          | .ok r2 =>
              (.ok { response := some (pyOrStr r2.content "处理完成")
                     model := req.model
                     usage :=
                       { promptTokens :=
                           r1.usage.promptTokens + r2.usage.promptTokens
                         completionTokens :=
                           r1.usage.completionTokens + r2.usage.completionTokens
                         totalTokens :=
                           r1.usage.totalTokens + r2.usage.totalTokens }
                     sessionId := req.sessionId
                     functionCall := some call
                     functionResult := some result
                     requiresFunctionCall := false }, [r1req, r2req])

/-- Plain chat message (`app/models.py` `ChatMessage`, role and content). -/
structure ChatMessage where
  role : String
  content : String
deriving DecidableEq

/-- `app/models.py` `ChatRequest` (the fields `_maybe_inject_rag_context`
reads). -/
structure ChatRequest where
  messages : List ChatMessage
  model : String
  userId : Int
  sessionId : Option String
  temperature : Option ℚ
  maxTokens : Option Int
  useRag : Option Bool
  ns : Option String
  ragTopK : Option Int
  tags : Option (List String)

/-- One entry of the `results` list returned by `RAGService.query` (score is
a rational stand-in for the float distance). -/
structure RetrievedItem where
  id : Option String
  content : String
  score : Option ℚ
  metadata : Option (List (String × JsonVal))

/-- Python `l[:k]` for an integer bound `k`: a non-negative bound keeps the
first `k` elements, a negative bound drops the last `-k`. -/
def pySliceTo {α : Type} (l : List α) (k : Int) : List α :=
  if 0 ≤ k then l.take k.toNat else l.take ((l.length : Int) + k).toNat

/-- Python `str()` of a JSON value as interpolated into the snippet f-string
(metadata values are strings or integers in this pipeline; composite values
are rendered structurally). -/
def pyStr : JsonVal → String
  | .null => "None"
  | .bool b => if b then "True" else "False"
  | .num n => toString n
  | .str s => s
  | .arr _ => "[...]"
  | .obj _ => "{...}"

/-- `meta.get(key, "")` rendered as a string. -/
def metaGetStr (meta : List (String × JsonVal)) (key : String) : String :=
  match List.lookup key meta with
  | none => ""
  | some v => pyStr v

/-- One snippet line of `_maybe_inject_rag_context`:
`[i+1] ns=..., doc=..., idx=...` on one line then the chunk content. -/
def snippetFor (i : Nat) (item : RetrievedItem) : String :=
  let meta := item.metadata.getD []
  "[" ++ toString (i + 1) ++ "] ns=" ++ metaGetStr meta "namespace"
    ++ ", doc=" ++ metaGetStr meta "doc_id"
    ++ ", idx=" ++ metaGetStr meta "chunk_index"
    ++ "\n" ++ item.content

/-- The snippets built from the query results: the list is sliced to
`top_k` and each item numbered from 1 in order. -/
def ragSnippets (results : List RetrievedItem) (topK : Int) : List String :=
  (pySliceTo results topK).enum.map (fun p => snippetFor p.1 p.2)

/-- The fixed instructional header of the injected system message. -/
def ragContextHeader : String :=
  "你是检索增强助手。以下是参考内容（[] 编号）。优先依据参考内容回答；不确定时说明不确定。\n"

/-- The system-role context message assembled from the snippets. -/
def ragContextMessage (snips : List String) : ChatMessage :=
  { role := "system"
    content := ragContextHeader ++ String.intercalate "\n\n" snips }

/-- `app/llm_service.py` `LLMService._maybe_inject_rag_context`.
`ragDefaultOn` is the service's `RAG_DEFAULT_ON` flag and `results` the
`results` list returned by `RAGService.query` for the last message (the
vector store is an external collaborator).  Injection requires `use_rag` or
the service default, a non-empty conversation and a non-empty snippet list,
and prepends one system message, leaving the original messages in place.
This method is called only by `chat_completion` (the synchronous endpoint
path); `chat_with_functions` — hence the queue worker — never calls it. -/
def effectiveRag (useRag : Option Bool) (ragDefaultOn : Bool) : Bool :=
  (match useRag with | none => false | some b => b) || ragDefaultOn

def maybeInjectRagContext (ragDefaultOn : Bool)
    (results : List RetrievedItem) (req : ChatRequest) : List ChatMessage :=
  let effective := effectiveRag req.useRag ragDefaultOn
  if ¬ effective ∨ req.messages = [] then req.messages
  else
    let topK := pyOrInt req.ragTopK 5
    let snippets := ragSnippets results topK
    match snippets with
    | [] => req.messages
    | s :: rest => ragContextMessage (s :: rest) :: req.messages

/-- One entry of a task's `history` list (a JSON dict with optional `role`
and `content`; entries that are not dicts, or whose role/content are falsy,
are dropped by the worker's filter). -/
structure HistoryItem where
  role : Option String
  content : Option String
deriving DecidableEq

/-- `app/worker_mq.py` `GenerateTask` after `from_json` coercion. -/
structure GenerateTask where
  requestId : String
  sessionId : String
  userId : Int
  model : String
  lastUserMessage : String
  history : Option (List HistoryItem)
  useRag : Option Bool
  ns : Option String
  tags : Option (List String)
deriving DecidableEq

/-- The decoded JSON body of a delivery, field-wise (a missing key is
`none`). -/
structure TaskJson where
  requestId : Option String
  sessionId : Option String
  userId : Option Int
  model : Option String
  lastUserMessage : Option String
  history : Option (List HistoryItem)
  useRag : Option Bool
  ns : Option String
  tags : Option (List String)
deriving DecidableEq

/-- `app/worker_mq.py` `GenerateTask.from_json`: string fields are
`str(data.get(k) or "")`; `user_id` is `int(data.get("user_id"))`, which
raises `TypeError` when the key is missing. -/
def GenerateTask.fromJson (data : TaskJson) : Except PyErr GenerateTask :=
  match data.userId with
  | none =>
      .error (.typeError "int() argument must be a string, a bytes-like object or a real number, not NoneType")
  | some u =>
      .ok { requestId := pyOrStr data.requestId ""
            sessionId := pyOrStr data.sessionId ""
            userId := u
            model := pyOrStr data.model ""
            lastUserMessage := pyOrStr data.lastUserMessage ""
            history := data.history
            useRag := data.useRag
            ns := data.ns
            tags := data.tags }

/-- Conversation building of `_handle_message`: a truthy (present and
non-empty) history is filtered to entries with non-empty stripped role and
non-empty content; if the filter yields nothing, or there is no history,
the single latest user message is used. -/
def buildMessages (task : GenerateTask) : List ChatMessage :=
  match task.history with
  | none => [{ role := "user", content := task.lastUserMessage }]
  | some [] => [{ role := "user", content := task.lastUserMessage }]
  | some (h0 :: hs) =>
      let msgs := (h0 :: hs).filterMap (fun it =>
        let role := (pyOrStr it.role "").trim
        let content := pyOrStr it.content ""
        if role ≠ "" ∧ content ≠ "" then some { role := role, content := content }
        else none)
      match msgs with
      | [] => [{ role := "user", content := task.lastUserMessage }]
      | m :: ms => m :: ms

/-- The required-field check of `_handle_message`:
`task.request_id and task.session_id and task.user_id and task.model and
task.last_user_message` (a zero user id is falsy). -/
def taskFieldsValid (t : GenerateTask) : Bool :=
  t.requestId != "" && (t.sessionId != "" && (t.userId != 0
    && (t.model != "" && t.lastUserMessage != "")))

/-- Whether a delivery body passes decoding plus the required-field check. -/
def taskValid (data : TaskJson) : Bool :=
  match GenerateTask.fromJson data with
  | .error _ => false
  | .ok t => taskFieldsValid t

/-- The `ChatRequestWithFunctions` the worker builds for a task: the built
conversation (with `functions` left empty so the service supplies the
registered list) and the pydantic defaults for the remaining fields. -/
def workerRequest (task : GenerateTask) : ChatRequestWithFunctions :=
  { messages := (buildMessages task).map (fun m =>
      { role := m.role, content := some m.content
        functionCall := none, name := none })
    model := task.model
    userId := task.userId
    sessionId := some task.sessionId
    temperature := some (7 / 10)
    maxTokens := none
    functions := none
    functionCallPolicy := some "auto" }

/-- The `chat.generated` success event payload assembled by
`_handle_message` (`int(... or 0)` on the usage fields is the identity on
integers, and the response's usage is always set). -/
structure GeneratedEventPayload where
  requestId : String
  sessionId : String
  userId : Int
  model : String
  response : Option String
  usage : TokenUsage
deriving DecidableEq

/-- `app/worker_mq.py` `_handle_message` for one delivery body: decode the
task, validate the required fields (raising `ValueError` before any
provider interaction), build the conversation, call `chat_with_functions`,
and assemble the `chat.generated` payload.  The second component is the
list of provider requests actually issued. -/
def handleMessage (modelSupported : String → Bool) (hasApiKey : Bool)
    (jsonLoads : String → Except String JsonVal) (dumps : JsonVal → String)
    (handlers : List (String × Handler))
    (available : List FunctionDefinition) (t0 t1 : Int)
    (provider : ProviderRequest → Except PyErr ProviderReply)
    (data : TaskJson) :
    Except PyErr GeneratedEventPayload × List ProviderRequest :=
  match GenerateTask.fromJson data with
  | .error e => (.error e, [])
  | .ok task =>
    if ¬ taskFieldsValid task then
      (.error (.valueError "invalid payload: missing required fields"), [])
    else
      match chatWithFunctions modelSupported hasApiKey jsonLoads dumps
          handlers available t0 t1 provider (workerRequest task) with
      | (.error e, trace) => (.error e, trace)
      | (.ok resp, trace) =>
          (.ok { requestId := task.requestId
                 sessionId := task.sessionId
                 userId := task.userId
                 model := resp.model
                 response := resp.response
                 usage := resp.usage }, trace)

/-- The JSON body of a queue delivery: the task payload plus the optional
`x-retry-count` key maintained by the retry path. -/
structure MqBody where
  task : TaskJson
  xRetryCount : Option Int
deriving DecidableEq

/-- A delivery as seen by the consumer loop: AMQP headers (modelled by the
only header the code reads, the integer `x-retry-count`, `none` when
absent) and the decoded JSON body. -/
structure MqDelivery where
  headers : Option Int
  body : MqBody
deriving DecidableEq

/-- Default of `MQ_ROUTING_GENERATED` (environment override not modelled). -/
def ROUTING_GENERATED : String := "chat.generated"

/-- Default of `MQ_ROUTING_RETRY`. -/
def ROUTING_RETRY : String := "chat.generate.retry"

/-- Default of `MQ_ROUTING_DLQ`. -/
def ROUTING_DLQ : String := "chat.generate.dlq"

/-- A published payload: either a `chat.generated` event or a (possibly
counter-carrying) task body republished to retry / dead-letter. -/
inductive PubBody where
  | gen (g : GeneratedEventPayload)
  | task (b : MqBody)
deriving DecidableEq

/-- The publications produced by one iteration of `run_consumer` for a
delivery, given the outcome of `_handle_message`: on success the
`chat.generated` event (published inside the handler); on
`asyncio.TimeoutError` the body with `x-retry-count` set to
`headers.get("x-retry-count", 0) + 1`, to the retry topic while the new
count is at most 5 and to the dead-letter topic beyond; on any other
exception the body unchanged to the dead-letter topic.  The delivery is
acknowledged in every case (`msg.process`). -/
def consumeStep (msg : MqDelivery)
    (handlerResult : Except PyErr GeneratedEventPayload) :
    List (String × PubBody) :=
  match handlerResult with
  | .ok g => [(ROUTING_GENERATED, .gen g)]
  | .error e =>
      if e.isTimeout then
        let retry := (msg.headers.getD 0) + 1
        let p : MqBody := { msg.body with xRetryCount := some retry }
        if retry ≤ 5 then [(ROUTING_RETRY, .task p)]
        else [(ROUTING_DLQ, .task p)]
      else [(ROUTING_DLQ, .task msg.body)]

/-- End-to-end processing of one delivery: run `_handle_message` and
classify its outcome. -/
def processDelivery (modelSupported : String → Bool) (hasApiKey : Bool)
    (jsonLoads : String → Except String JsonVal) (dumps : JsonVal → String)
    (handlers : List (String × Handler))
    (available : List FunctionDefinition) (t0 t1 : Int)
    (provider : ProviderRequest → Except PyErr ProviderReply)
    (msg : MqDelivery) : List (String × PubBody) :=
  consumeStep msg (handleMessage modelSupported hasApiKey jsonLoads dumps
    handlers available t0 t1 provider msg.body.task).1

/-- `_publish` republishes a payload as a fresh AMQP message built from the
JSON body alone — it sets no headers, so a message flowing back from the
retry queue is delivered with no `x-retry-count` header. -/
def publishedDelivery (p : MqBody) : MqDelivery :=
  { headers := none, body := p }

/-- The delivery seen by the consumer on the `n`-th attempt of a task whose
handling always fails with `asyncio.TimeoutError`: attempt 0 is the
producer's original delivery; each republish applies the retry branch of
`run_consumer` (read the counter from the headers, add one, store it in the
body) and `_publish` (which carries no headers). -/
def transientTrace (b0 : MqBody) : Nat → MqDelivery
  | 0 => { headers := none, body := b0 }
  | n + 1 =>
      let d := transientTrace b0 n
      publishedDelivery { d.body with xRetryCount := some ((d.headers.getD 0) + 1) }

/-- A concrete well-formed task body (all five required fields present and
non-empty). -/
def sampleTaskJson : TaskJson :=
  { requestId := some "req-1", sessionId := some "sess-1", userId := some 7
    model := some "gpt-4.1-nano", lastUserMessage := some "你好"
    history := none, useRag := none, ns := none, tags := none }

/-- Claim C1: `run_consumer` reads the retry counter from the message
HEADERS (`msg.headers["x-retry-count"]`) but stores it in the JSON BODY, and
`_publish` never sets headers — so on a task that fails with
`asyncio.TimeoutError` on every attempt the counter carried by each
republished envelope is `1` forever: it is never incremented across
republishes, never exceeds the ceiling 5, and the sixth attempt (after five
transient republishes) is routed to the retry topic again instead of the
dead-letter topic required by the specification. -/
theorem retry_counter_stuck_at_one :
    ((List.range 7).map (fun n =>
        (transientTrace { task := sampleTaskJson, xRetryCount := none } n).body.xRetryCount))
      = [none, some 1, some 1, some 1, some 1, some 1, some 1]
    ∧ consumeStep
        (transientTrace { task := sampleTaskJson, xRetryCount := none } 5)
        (.error .timeoutErr)
      = [(ROUTING_RETRY, .task { task := sampleTaskJson, xRetryCount := some 1 })]
    ∧ ROUTING_RETRY ≠ ROUTING_DLQ := by
  refine ⟨rfl, rfl, by decide⟩

/-- Claim C7: a delivery whose task body fails decoding or the five-field
requirement produces no provider request at all, and the consumer forwards
the body unchanged to the dead-letter topic (no retry publication, no
retry counter attached). -/
theorem invalid_task_dead_letter (modelSupported : String → Bool)
    (hasApiKey : Bool) (jsonLoads : String → Except String JsonVal)
    (dumps : JsonVal → String) (handlers : List (String × Handler))
    (available : List FunctionDefinition) (t0 t1 : Int)
    (provider : ProviderRequest → Except PyErr ProviderReply)
    (msg : MqDelivery)
    (hinvalid : taskValid msg.body.task = false) :
    (handleMessage modelSupported hasApiKey jsonLoads dumps handlers
        available t0 t1 provider msg.body.task).2 = []
    ∧ processDelivery modelSupported hasApiKey jsonLoads dumps handlers
        available t0 t1 provider msg
      = [(ROUTING_DLQ, .task msg.body)] := by
  unfold taskValid at hinvalid
  unfold processDelivery handleMessage
  cases hfj : GenerateTask.fromJson msg.body.task with
  | error e =>
    have he : e.isTimeout = false := by
      unfold GenerateTask.fromJson at hfj
      cases hu : msg.body.task.userId with
      | none =>
        rw [hu] at hfj
        cases hfj
        rfl
      | some u =>
        rw [hu] at hfj
        cases hfj
    exact ⟨rfl, by simp [consumeStep, he]⟩
  | ok task =>
    rw [hfj] at hinvalid
    have hfv : taskFieldsValid task = false := hinvalid
    refine ⟨?_, ?_⟩
    · simp [hfv]
    · simp [hfv, consumeStep, PyErr.isTimeout]

/-- A concrete invalid task body: the required `model` field is missing. -/
def invalidTaskJson : TaskJson :=
  { requestId := some "req-2", sessionId := some "sess-2", userId := some 1
    model := none, lastUserMessage := some "你好"
    history := none, useRag := none, ns := none, tags := none }

/-- Witness for C7: the model-less task is forwarded straight to the
dead-letter topic with no provider request. -/
theorem invalid_task_dead_letter_witness :
    (handleMessage (fun _ => true) true (fun _ => Except.error "x")
        (fun _ => "ok") [] [] 0 0 (fun _ => Except.error PyErr.timeoutErr)
        invalidTaskJson).2 = []
    ∧ processDelivery (fun _ => true) true (fun _ => Except.error "x")
        (fun _ => "ok") [] [] 0 0 (fun _ => Except.error PyErr.timeoutErr)
        { headers := none, body := { task := invalidTaskJson, xRetryCount := none } }
      = [(ROUTING_DLQ, .task { task := invalidTaskJson, xRetryCount := none })] :=
  invalid_task_dead_letter (fun _ => true) true (fun _ => Except.error "x")
    (fun _ => "ok") [] [] 0 0 (fun _ => Except.error PyErr.timeoutErr)
    { headers := none, body := { task := invalidTaskJson, xRetryCount := none } }
    (by decide)

/-- Claim C5: when the first-round reply carries a function call,
`chat_with_functions` issues exactly two provider requests; the second one's
conversation is the original conversation (plain role/content rendering)
extended by an assistant message with empty content carrying the call,
followed by a function-role message whose content is the JSON serialization
of the `result` field of the registry dispatch outcome (whatever its
success flag), and the second request offers no function list and no call
policy — so at most one function-call round occurs. -/
theorem function_call_single_round (modelSupported : String → Bool)
    (hasApiKey : Bool) (jsonLoads : String → Except String JsonVal)
    (dumps : JsonVal → String) (handlers : List (String × Handler))
    (available : List FunctionDefinition) (t0 t1 : Int)
    (provider : ProviderRequest → Except PyErr ProviderReply)
    (req : ChatRequestWithFunctions) (r1 : ProviderReply) (call : FunctionCall)
    (hsupp : modelSupported req.model = true)
    (hkey : hasApiKey = true)
    (h1 : provider (round1Request available req) = Except.ok r1)
    (hcall : r1.functionCall = some call) :
    (chatWithFunctions modelSupported hasApiKey jsonLoads dumps handlers
        available t0 t1 provider req).2
      = [round1Request available req,
         { model := req.model
           messages := req.messages.map renderPlain
             ++ [{ role := "assistant", content := ""
                   functionCall := some call, name := none },
                 { role := "function"
                   content := dumps
                     (FunctionExecutor.execute jsonLoads handlers call t0 t1).result
                   functionCall := none, name := some call.name }]
           temperature := pyOrRat req.temperature (7 / 10)
           maxTokens := pyOrInt req.maxTokens 1000
           functions := none
           functionCallPolicy := none }] := by
  unfold chatWithFunctions
  simp only [hsupp, hkey, not_true_eq_false, if_false, h1, hcall]
  cases hp2 : provider (round2Request dumps req call
      (FunctionExecutor.execute jsonLoads handlers call t0 t1)) <;>
    simp [hp2, round2Request]

/-- A provider oracle for the concrete witnesses: a one-message conversation
gets a `get_current_time` call request with usage (10, 5, 15); the extended
conversation gets a final text with usage (8, 4, 12). -/
def toyProvider : ProviderRequest → Except PyErr ProviderReply := fun r =>
  if r.messages.length ≤ 1 then
    Except.ok { content := none
                functionCall := some { name := "get_current_time", arguments := "" }
                usage := { promptTokens := 10, completionTokens := 5, totalTokens := 15 } }
  else
    Except.ok { content := some "现在是中午。"
                functionCall := none
                usage := { promptTokens := 8, completionTokens := 4, totalTokens := 12 } }

/-- A concrete one-message request, as the worker would build it. -/
def toyRequest : ChatRequestWithFunctions :=
  { messages := [{ role := "user", content := some "几点了？"
                   functionCall := none, name := none }]
    model := "gpt-4.1-nano", userId := 1, sessionId := some "sess-1"
    temperature := some (7 / 10), maxTokens := none
    functions := none, functionCallPolicy := some "auto" }

/-- The toy registry: `get_current_time` returns a fixed object. -/
def toyHandlers : List (String × Handler) :=
  [("get_current_time", fun _ =>
      HandlerOutcome.ok (JsonVal.obj [("current_time", JsonVal.str "12:00")]))]

/-- Witness for C5 at the concrete toy setting. -/
theorem function_call_single_round_witness :
    (chatWithFunctions (fun _ => true) true (fun _ => Except.error "Expecting value")
        (fun _ => "ok") toyHandlers [] 0 1 toyProvider toyRequest).2
      = [round1Request [] toyRequest,
         { model := toyRequest.model
           messages := toyRequest.messages.map renderPlain
             ++ [{ role := "assistant", content := ""
                   functionCall := some { name := "get_current_time", arguments := "" }
                   name := none },
                 { role := "function", content := "ok"
                   functionCall := none, name := some "get_current_time" }]
           temperature := pyOrRat toyRequest.temperature (7 / 10)
           maxTokens := pyOrInt toyRequest.maxTokens 1000
           functions := none
           functionCallPolicy := none }] :=
  function_call_single_round (fun _ => true) true
    (fun _ => Except.error "Expecting value") (fun _ => "ok") toyHandlers []
    0 1 toyProvider toyRequest
    { content := none
      functionCall := some { name := "get_current_time", arguments := "" }
      usage := { promptTokens := 10, completionTokens := 5, totalTokens := 15 } }
    { name := "get_current_time", arguments := "" }
    rfl rfl rfl rfl

/-- Claim C6: the usage of a completed task is the componentwise sum of the
usages of the rounds actually issued — the single first-round usage when the
reply answers directly, and the componentwise sum of both rounds' usages
when a function call occurred. -/
theorem usage_aggregation (modelSupported : String → Bool)
    (hasApiKey : Bool) (jsonLoads : String → Except String JsonVal)
    (dumps : JsonVal → String) (handlers : List (String × Handler))
    (available : List FunctionDefinition) (t0 t1 : Int)
    (provider : ProviderRequest → Except PyErr ProviderReply)
    (req : ChatRequestWithFunctions) (r1 : ProviderReply)
    (hsupp : modelSupported req.model = true)
    (hkey : hasApiKey = true)
    (h1 : provider (round1Request available req) = Except.ok r1) :
    (∀ (call : FunctionCall) (r2 : ProviderReply),
      r1.functionCall = some call →
      provider (round2Request dumps req call
          (FunctionExecutor.execute jsonLoads handlers call t0 t1))
        = Except.ok r2 →
      Except.map (fun r => r.usage)
          (chatWithFunctions modelSupported hasApiKey jsonLoads dumps handlers
            available t0 t1 provider req).1
        = Except.ok
          { promptTokens := r1.usage.promptTokens + r2.usage.promptTokens
            completionTokens :=
              r1.usage.completionTokens + r2.usage.completionTokens
            totalTokens := r1.usage.totalTokens + r2.usage.totalTokens })
    ∧ (r1.functionCall = none →
      Except.map (fun r => r.usage)
          (chatWithFunctions modelSupported hasApiKey jsonLoads dumps handlers
            available t0 t1 provider req).1
        = Except.ok r1.usage) := by
  constructor
  · intro call r2 hcall h2
    unfold chatWithFunctions
    simp only [hsupp, hkey, not_true_eq_false, if_false, h1, hcall, h2]
    rfl
  · intro hnone
    unfold chatWithFunctions
    simp only [hsupp, hkey, not_true_eq_false, if_false, h1, hnone]
    rfl

/-- Witness for C6: the toy two-round completion with per-round usages
(10, 5, 15) and (8, 4, 12) aggregates to (18, 9, 27). -/
theorem usage_aggregation_witness :
    Except.map (fun r => r.usage)
        (chatWithFunctions (fun _ => true) true
          (fun _ => Except.error "Expecting value") (fun _ => "ok")
          toyHandlers [] 0 1 toyProvider toyRequest).1
      = Except.ok { promptTokens := 18, completionTokens := 9, totalTokens := 27 } :=
  (usage_aggregation (fun _ => true) true
      (fun _ => Except.error "Expecting value") (fun _ => "ok") toyHandlers []
      0 1 toyProvider toyRequest
      { content := none
        functionCall := some { name := "get_current_time", arguments := "" }
        usage := { promptTokens := 10, completionTokens := 5, totalTokens := 15 } }
      rfl rfl rfl).1
    { name := "get_current_time", arguments := "" }
    { content := some "现在是中午。", functionCall := none
      usage := { promptTokens := 8, completionTokens := 4, totalTokens := 12 } }
    rfl rfl

/-- Claim C10: after a function-call round the published response text is
never null and never empty — a null or empty second-round content is
replaced by the fixed placeholder `"处理完成"`; in the no-function-call case
a null first-round content is replaced by the empty string. -/
theorem response_placeholder (modelSupported : String → Bool)
    (hasApiKey : Bool) (jsonLoads : String → Except String JsonVal)
    (dumps : JsonVal → String) (handlers : List (String × Handler))
    (available : List FunctionDefinition) (t0 t1 : Int)
    (provider : ProviderRequest → Except PyErr ProviderReply)
    (req : ChatRequestWithFunctions) (r1 : ProviderReply)
    (hsupp : modelSupported req.model = true)
    (hkey : hasApiKey = true)
    (h1 : provider (round1Request available req) = Except.ok r1) :
    (∀ (call : FunctionCall) (r2 : ProviderReply),
      r1.functionCall = some call →
      provider (round2Request dumps req call
          (FunctionExecutor.execute jsonLoads handlers call t0 t1))
        = Except.ok r2 →
      Except.map (fun r => r.response)
          (chatWithFunctions modelSupported hasApiKey jsonLoads dumps handlers
            available t0 t1 provider req).1
        = Except.ok (some (pyOrStr r2.content "处理完成"))
      ∧ pyOrStr r2.content "处理完成" ≠ ""
      ∧ ((r2.content = none ∨ r2.content = some "") →
          pyOrStr r2.content "处理完成" = "处理完成"))
    ∧ (r1.functionCall = none → r1.content = none →
      Except.map (fun r => r.response)
          (chatWithFunctions modelSupported hasApiKey jsonLoads dumps handlers
            available t0 t1 provider req).1
        = Except.ok (some "")) := by
  constructor
  · intro call r2 hcall h2
    refine ⟨?_, ?_, ?_⟩
    · unfold chatWithFunctions
      simp only [hsupp, hkey, not_true_eq_false, if_false, h1, hcall, h2]
      rfl
    · cases hc : r2.content with
      | none => simp [pyOrStr]
      | some s =>
        by_cases hs : s = "" <;> simp [pyOrStr, hs]
    · intro hco
      rcases hco with hco | hco <;> simp [pyOrStr, hco]
  · intro hnone hcontent
    unfold chatWithFunctions
    simp only [hsupp, hkey, not_true_eq_false, if_false, h1, hnone]
    simp only [hcontent, pyOrStr]
    rfl

/-- Witness for C10: the toy two-round completion returns the second
round's non-empty text unchanged, and it is non-empty. -/
theorem response_placeholder_witness :
    Except.map (fun r => r.response)
        (chatWithFunctions (fun _ => true) true
          (fun _ => Except.error "Expecting value") (fun _ => "ok")
          toyHandlers [] 0 1 toyProvider toyRequest).1
      = Except.ok (some (pyOrStr (some "现在是中午。") "处理完成"))
    ∧ pyOrStr (some "现在是中午。") "处理完成" ≠ "" :=
  let h := (response_placeholder (fun _ => true) true
      (fun _ => Except.error "Expecting value") (fun _ => "ok") toyHandlers []
      0 1 toyProvider toyRequest
      { content := none
        functionCall := some { name := "get_current_time", arguments := "" }
        usage := { promptTokens := 10, completionTokens := 5, totalTokens := 15 } }
      rfl rfl rfl).1
    { name := "get_current_time", arguments := "" }
    { content := some "现在是中午。", functionCall := none
      usage := { promptTokens := 8, completionTokens := 4, totalTokens := 12 } }
    rfl rfl
  ⟨h.1, h.2.1⟩

/-- Claim C2 as amended: the retrieval-context condition of the claim holds
of `_maybe_inject_rag_context`, which only the synchronous `chat_completion`
path calls — when `use_rag` (or the service default) is on, the conversation
is non-empty and the sliced retrieval results yield at least one snippet,
exactly one system context message is prepended and the original messages
are preserved; with the flag off, or with no snippets, the conversation is
unchanged (a positive `top_k` and at least one result always yield a
snippet).  The asynchronous task consumer, by contrast, never injects
context: the round-1 conversation it sends to the provider is exactly the
conversation built from the task, whatever `use_rag` says. -/
theorem rag_context_injection (ragDefaultOn : Bool)
    (results : List RetrievedItem) (req : ChatRequest) :
    (∀ (s : String) (rest : List String),
      effectiveRag req.useRag ragDefaultOn = true →
      req.messages ≠ [] →
      ragSnippets results (pyOrInt req.ragTopK 5) = s :: rest →
      maybeInjectRagContext ragDefaultOn results req
        = ragContextMessage (s :: rest) :: req.messages)
    ∧ (effectiveRag req.useRag ragDefaultOn = false →
      maybeInjectRagContext ragDefaultOn results req = req.messages)
    ∧ (ragSnippets results (pyOrInt req.ragTopK 5) = [] →
      maybeInjectRagContext ragDefaultOn results req = req.messages)
    ∧ (∀ (k : Int), 1 ≤ k → results ≠ [] → ragSnippets results k ≠ [])
    ∧ (∀ (available : List FunctionDefinition) (task : GenerateTask),
      (round1Request available (workerRequest task)).messages
        = (buildMessages task).map (fun m =>
            { role := m.role, content := m.content
              functionCall := none, name := none })) := by
  refine ⟨?_, ?_, ?_, ?_, ?_⟩
  · intro s rest heff hmsg hsnip
    unfold maybeInjectRagContext
    rw [if_neg (by simp [heff, hmsg])]
    simp only [hsnip]
  · intro heff
    unfold maybeInjectRagContext
    rw [if_pos (by simp [heff])]
  · intro hsnip
    unfold maybeInjectRagContext
    by_cases hcond : ¬ effectiveRag req.useRag ragDefaultOn = true
        ∨ req.messages = []
    · rw [if_pos hcond]
    · rw [if_neg hcond]
      simp only [hsnip]
  · intro k hk hres
    have h0 : (0 : Int) ≤ k := by omega
    have h1 : 0 < (pySliceTo results k).length := by
      unfold pySliceTo
      rw [if_pos h0, List.length_take]
      have h2 : 0 < results.length := List.length_pos.mpr hres
      have h3 : 0 < k.toNat := by omega
      omega
    unfold ragSnippets
    apply List.ne_nil_of_length_pos
    rw [List.length_map, List.enum_length]
    exact h1
  · intro available task
    unfold round1Request workerRequest
    simp only [List.map_map]
    refine List.map_congr_left ?_
    intro m _
    simp only [Function.comp_apply, renderMessage]
    by_cases hc : m.content = "" <;> simp [pyOrStr, hc]

/-- A concrete retrieval result set with one chunk. -/
def sampleResults : List RetrievedItem :=
  [{ id := some "id-1", content := "巴黎是法国的首都。", score := some 0
     metadata := some [("namespace", .str "default"), ("doc_id", .str "doc-1"),
                       ("chunk_index", .num 0)] }]

/-- A concrete task with `use_rag` explicitly enabled. -/
def sampleTask : GenerateTask :=
  { requestId := "req-1", sessionId := "sess-1", userId := 7
    model := "gpt-4.1-nano", lastUserMessage := "法国的首都是哪里？"
    history := none, useRag := some true, ns := none, tags := none }

/-- Claim C2, counterexample: for the concrete task with `use_rag = true`
and a retrieval set holding one result, the conversation the queue worker
sends to the provider in round 1 is exactly the single user message — no
system context message is prepended, because the worker drops `use_rag`
when building `ChatRequestWithFunctions` and `chat_with_functions` never
performs retrieval injection. -/
theorem worker_no_rag_injection_counterexample :
    sampleTask.useRag = some true
    ∧ sampleResults.length = 1
    ∧ (round1Request [] (workerRequest sampleTask)).messages
      = [{ role := "user", content := "法国的首都是哪里？"
           functionCall := none, name := none }]
    ∧ ((round1Request [] (workerRequest sampleTask)).messages.all
        (fun m => m.role != "system")) = true :=
  ⟨rfl, rfl, by decide, by decide⟩

/-- A concrete synchronous chat request with `use_rag = true`. -/
def sampleChatReq : ChatRequest :=
  { messages := [{ role := "user", content := "法国的首都是哪里？" }]
    model := "gpt-4.1-nano", userId := 7, sessionId := some "sess-1"
    temperature := none, maxTokens := none
    useRag := some true, ns := none, ragTopK := none, tags := none }

/-- Witness for the amended C2: on the concrete synchronous request the
context message built from the one retrieval result is prepended and the
original user message is preserved behind it. -/
theorem rag_context_injection_witness :
    maybeInjectRagContext false sampleResults sampleChatReq
      = ragContextMessage (ragSnippets sampleResults 5) :: sampleChatReq.messages :=
  (rag_context_injection false sampleResults sampleChatReq).1
    (snippetFor 0
      { id := some "id-1", content := "巴黎是法国的首都。", score := some 0
        metadata := some [("namespace", .str "default"),
                          ("doc_id", .str "doc-1"), ("chunk_index", .num 0)] })
    [] rfl (by decide) rfl
